import Mathlib

/-!
Shallow embedding of the Cue backend (server/app) for spec verification.

The source is a Python FastAPI application.  Cooperative (async/await)
handlers run to completion between suspension points, every broadcast is
awaited in program order, and all the code relevant to the claims is
sequential inside one handler invocation; so each handler is embedded as a
pure Lean function from the behaviour of its external collaborators (the
Gemini capability calls and the MongoDB store, each modelled as an input
value `Except`/`Option`) to its return value together with the ordered
trace of events it broadcasts.
-/

namespace Cue

/-! ## Broadcast hub (`DashboardConnectionManager.broadcast`,
`ExtensionConnectionManager.broadcast` in server/app/main.py)

A connection is identified by a natural number; the registered set is a
list (the iteration order of the Python set).  Whether a given
connection's `send_json` raises during this broadcast is an input
predicate `sendOk`.  The embedding returns the connections delivered to,
the subset collected as disconnected, and the registered set after the
post-sweep cleanup. -/

abbrev Conn := Nat

structure BroadcastOutcome where
  delivered : List Conn
  disconnected : List Conn
  remaining : List Conn
deriving Repr, DecidableEq

/-- The `for connection in self.active_connections: try send / except: add
to disconnected` sweep: returns (delivered, disconnected), in iteration
order. -/
def broadcastSweep (sendOk : Conn → Bool) : List Conn → List Conn × List Conn
  | [] => ([], [])
  | c :: rest =>
      let r := broadcastSweep sendOk rest
      if sendOk c then (c :: r.1, r.2) else (r.1, c :: r.2)

/-- `DashboardConnectionManager.broadcast`: early-returns when no
connections are registered; otherwise sweeps all connections, then
discards each collected disconnected connection from the registered set. -/
def DashboardConnectionManager.broadcast (conns : List Conn) (sendOk : Conn → Bool) :
    BroadcastOutcome :=
  if conns = [] then ⟨[], [], conns⟩
  else
    let s := broadcastSweep sendOk conns
    ⟨s.1, s.2, conns.filter (fun c => !s.2.contains c)⟩

/-- `ExtensionConnectionManager.broadcast`: same sweep-then-prune shape,
without the early return on an empty set. -/
def ExtensionConnectionManager.broadcast (conns : List Conn) (sendOk : Conn → Bool) :
    BroadcastOutcome :=
  let s := broadcastSweep sendOk conns
  ⟨s.1, s.2, conns.filter (fun c => !s.2.contains c)⟩

/-! ## Embeddings (`server/app/agents/embeddings.py`)

`generate_embedding` is modelled along the code path where no external
embedding service is configured (`GEMINI_API_KEY` unset), which is the
situation the claim about it addresses: the guard clause returns the zero
vector for falsy/whitespace-only text, and otherwise the deterministic
stub is used.  Python's process-global `hash` on strings is an input
function `hashFn`; vector components are rationals. -/

def EMBED_DIM : Nat := 768

/-- Python whitespace for `str.strip()`, restricted to the ASCII range the
code can encounter here. -/
def isPySpace (c : Char) : Bool :=
  c.isWhitespace || c = '\x0b' || c = '\x0c'

/-- `not text or not text.strip()`: true iff the text is empty or entirely
whitespace. -/
def pyBlank (s : String) : Bool :=
  s.toList.all isPySpace

/-- `_stub_embedding`: `h = hash(text) % 2**32`, component `i` is
`((h + i) % 1000) / 1000.0 - 0.5`. -/
def stub_embedding (hashFn : String → Nat) (text : String) : List ℚ :=
  let h := hashFn text % 2 ^ 32
  (List.range EMBED_DIM).map (fun i => (((h + i) % 1000 : ℕ) : ℚ) / 1000 - 1 / 2)

/-- `generate_embedding` with no API key configured. -/
def generate_embedding (hashFn : String → Nat) (text : String) : List ℚ :=
  if pyBlank text then List.replicate EMBED_DIM 0
  else stub_embedding hashFn text

/-! ## Repository id guards (`server/app/db/repository.py`)

`ObjectId(s)` for a string `s` succeeds exactly when `s` is 24 hex
characters; on any other string it raises, the surrounding
`try/except` catches, and the function returns its failure value.  The
store itself is an input function consulted only on a valid id. -/

def isHexChar (c : Char) : Bool :=
  c.isDigit || ('a' ≤ c && c ≤ 'f') || ('A' ≤ c && c ≤ 'F')

def isValidObjectId (s : String) : Bool :=
  s.length = 24 && s.toList.all isHexChar

def get_session_by_id {α : Type} (store : String → Option α) (session_id : String) :
    Option α :=
  if isValidObjectId session_id then store session_id else none

def update_session (store : String → Bool) (session_id : String) : Bool :=
  if isValidObjectId session_id then store session_id else false

def delete_session (store : String → Bool) (session_id : String) : Bool :=
  if isValidObjectId session_id then store session_id else false

def get_suggested_task_by_id {α : Type} (store : String → Option α) (task_id : String) :
    Option α :=
  if isValidObjectId task_id then store task_id else none

def update_suggested_task (store : String → Bool) (task_id : String) : Bool :=
  if isValidObjectId task_id then store task_id else false

def delete_suggested_task (store : String → Bool) (task_id : String) : Bool :=
  if isValidObjectId task_id then store task_id else false

/-! ## Session pipeline (`save_session_endpoint` in server/app/main.py)

The handler is embedded as a pure function of the request payload, the
temporary id drawn by `uuid.uuid4()`, and an environment giving the
outcome of each external call it makes: the transcription capability, the
summary capability, the thumbnail capability (failures are non-fatal, so
an `Option`), and the MongoDB insert.  The output is the synchronous API
response, the ordered trace of broadcast events, whether the summary
capability was invoked, and the record handed to the store (when the
pipeline reached the persistence stage). -/

structure SessionSaveRequest where
  title : String
  source_url : String
  duration_seconds : Nat
  audio_base64 : String
  mime_type : String
deriving Repr, DecidableEq

structure Summary where
  tldr : String
  key_points : List String
  action_items : List (String × String)
  topic : String
  sentiment : String
deriving Repr, DecidableEq

structure Thumbnail where
  image_base64 : String
  mime_type : String
deriving Repr, DecidableEq

/-- The `broadcast_data` dict for the `SESSION_RESULT` event. -/
structure SessionBroadcast where
  title : String
  source_url : String
  duration_seconds : Nat
  transcript : String
  summary : Summary
  video_url : Option String
  has_video : Bool
  thumbnail : Option Thumbnail
deriving Repr, DecidableEq

/-- The `session_data` dict handed to `save_session` (the durable store). -/
structure SessionData where
  title : String
  source_url : String
  duration_seconds : Nat
  transcript : String
  summary : Summary
  video_url : Option String
  has_video : Bool
  summary_embedding : List ℚ
  thumbnail : Option Thumbnail
deriving Repr, DecidableEq

/-- The events `save_session_endpoint` broadcasts to the dashboard hub,
in program order. -/
inductive Event where
  | processingStart (sessionId title source_url : String) (duration : Nat)
  | progress (sessionId : String) (percent : Nat) (step : String)
  | sessionResult (sessionId : String) (data : SessionBroadcast)
  | sessionError (sessionId : String) (error : String)
  | idUpdate (tempSessionId dbSessionId : String)
deriving Repr, DecidableEq

/-- Synchronous response of the endpoint (success body or `JSONResponse`
failure body). -/
structure ApiResult where
  success : Bool
  sessionId : Option String
  transcript : Option String
  summary : Option Summary
  error : Option String
deriving Repr, DecidableEq

/-- Behaviour of the external collaborators during one invocation. -/
structure Env where
  transcribe : Except String String
  summarize : Except String Summary
  thumbnail : Option Thumbnail
  dbSave : Except String String
deriving Repr

structure RunOutput where
  result : ApiResult
  events : List Event
  summarizeCalled : Bool
  dbRecord : Option SessionData
deriving Repr, DecidableEq

/-- `transcript[:500] + "..." if len(transcript) > 500 else transcript`. -/
def truncateTranscript (t : String) : String :=
  if t.length > 500 then (t.take 500).append "..." else t

def noSpeechMarker : String := "[No speech detected in recording]"

/-- `save_session_endpoint`, stage by stage. -/
def save_session_endpoint (hashFn : String → Nat) (payload : SessionSaveRequest)
    (session_id : String) (env : Env) : RunOutput :=
  let startEv := Event.processingStart session_id payload.title payload.source_url
      payload.duration_seconds
  let evs0 := [startEv, Event.progress session_id 10 "transcribing"]
  match env.transcribe with
  | .error err =>
      { result := ⟨false, none, none, none, some ("Transcription failed: " ++ err)⟩
        events := evs0 ++ [Event.sessionError session_id err]
        summarizeCalled := false
        dbRecord := none }
  | .ok raw =>
      let transcript := if raw = "" then noSpeechMarker else raw
      let evs1 := evs0 ++ [Event.progress session_id 50 "transcribing",
        Event.progress session_id 55 "summarizing"]
      match env.summarize with
      | .error err =>
          { result := ⟨false, none, none, none, some ("Summary failed: " ++ err)⟩
            events := evs1 ++ [Event.sessionError session_id err]
            summarizeCalled := true
            dbRecord := none }
      | .ok summary =>
          let evs2 := evs1 ++ [Event.progress session_id 70 "summarizing",
            Event.progress session_id 75 "generating_thumbnail",
            Event.progress session_id 98 "saving_to_db"]
          let summaryText := summary.tldr ++ " " ++ String.intercalate " " summary.key_points
          let sd : SessionData :=
            ⟨payload.title, payload.source_url, payload.duration_seconds, transcript,
              summary, none, false, generate_embedding hashFn summaryText, env.thumbnail⟩
          let bd : SessionBroadcast :=
            ⟨payload.title, payload.source_url, payload.duration_seconds, transcript,
              summary, none, false, env.thumbnail⟩
          let evs3 := evs2 ++ [Event.sessionResult session_id bd]
          let okResult : String → ApiResult := fun sid =>
            ⟨true, some sid, some (truncateTranscript transcript), some summary, none⟩
          match env.dbSave with
          | .ok dbId =>
              let idEvs := if dbId ≠ session_id then [Event.idUpdate session_id dbId] else []
              { result := okResult dbId
                events := evs3 ++ idEvs ++ [Event.progress session_id 100 "complete"]
                summarizeCalled := true
                dbRecord := some sd }
          | .error _ =>
              { result := okResult session_id
                events := evs3 ++ [Event.progress session_id 100 "complete"]
                summarizeCalled := true
                dbRecord := some sd }

/-! Trace observation helpers. -/

/-- The `(sessionId, percent, step)` of each `SESSION_PROGRESS` event, in
broadcast order. -/
def progressEvents (es : List Event) : List (String × Nat × String) :=
  es.filterMap fun e =>
    match e with
    | .progress sid p step => some (sid, p, step)
    | _ => none

def Event.isIdUpdate : Event → Bool
  | .idUpdate _ _ => true
  | _ => false

def isResultFor (sid : String) : Event → Bool
  | .sessionResult s _ => s = sid
  | _ => false

def isErrorFor (sid : String) : Event → Bool
  | .sessionError s _ => s = sid
  | _ => false

/-- The transcript of every `SESSION_RESULT` event in a trace. -/
def resultTranscripts (es : List Event) : List String :=
  es.filterMap fun e =>
    match e with
    | .sessionResult _ d => some d.transcript
    | _ => none

/-! ## Suggested-task status update (`update_task_endpoint` in
server/app/main.py together with `update_suggested_task` in
server/app/db/repository.py)

The endpoint is embedded over the current status of the addressed task
(`none` when no task with that id exists or the id is malformed) and the
request's optional `status` field.  `update_suggested_task` always sets
`updated_at`, so for an existing task the Mongo `modified_count` is
positive and the write succeeds whenever the id resolves. -/

def statusEnum : List String := ["pending", "in_progress", "completed", "dismissed"]

structure TaskUpdateResponse where
  success : Bool
  error : Option String
deriving Repr, DecidableEq

/-- `update_task_endpoint`: returns the response body and the stored
status after the call. -/
def update_task_endpoint (stored : Option String) (reqStatus : Option String) :
    TaskUpdateResponse × Option String :=
  match reqStatus with
  | none => (⟨false, some "No updates provided"⟩, stored)
  | some s =>
      if s = "" then (⟨false, some "No updates provided"⟩, stored)
      else if ¬ (s ∈ statusEnum) then
        (⟨false, some "Invalid status. Must be: pending, in_progress, completed, or dismissed"⟩,
          stored)
      else
        match stored with
        | none => (⟨false, some "Task not found or update failed"⟩, none)
        | some _ => (⟨true, none⟩, some s)

/-- The transition table the spec describes (stated from the spec's words,
for comparison with `update_task_endpoint`): pending →
{in_progress, completed, dismissed}; in_progress → {completed, dismissed};
completed and dismissed terminal. -/
def specAllowedTransition (fromStatus toStatus : String) : Bool :=
  match fromStatus with
  | "pending" => toStatus = "in_progress" || toStatus = "completed" || toStatus = "dismissed"
  | "in_progress" => toStatus = "completed" || toStatus = "dismissed"
  | _ => false

/-! ## Extension task sync (`websocket_extension` and
`ExtensionConnectionManager` in server/app/main.py)

Stored suggested tasks are a list, newest first (the sort order of
`list_suggested_tasks`). -/

structure XTask where
  id : String
  status : String
deriving Repr, DecidableEq

inductive ExtMsg where
  | syncedTasks (tasks : List XTask)
deriving Repr, DecidableEq

/-- The snapshot both the on-connect push and the `REQUEST_TASKS` reply
compute: `list_suggested_tasks(limit=50)`, filter `status != "completed"`,
take the first 5. -/
def extensionSnapshot (tasks : List XTask) : List XTask :=
  (((tasks.take 50).filter (fun t => t.status ≠ "completed")).take 5)

/-- Messages sent to a freshly connected extension socket: the snapshot is
sent only when it is non-empty (`if pending_tasks:`). -/
def onExtensionConnect (tasks : List XTask) : List ExtMsg :=
  let s := extensionSnapshot tasks
  if s = [] then [] else [ExtMsg.syncedTasks s]

/-- Reply to a `REQUEST_TASKS` message: always answered with the
snapshot. -/
def onRequestTasks (tasks : List XTask) : ExtMsg :=
  ExtMsg.syncedTasks (extensionSnapshot tasks)

/-! ## Theorems -/

theorem broadcastSweep_eq (sendOk : Conn → Bool) (l : List Conn) :
    broadcastSweep sendOk l = (l.filter sendOk, l.filter fun c => !sendOk c) := by
  induction l with
  | nil => rfl
  | cons c rest ih =>
      by_cases h : sendOk c = true <;>
        simp [broadcastSweep, ih, List.filter_cons, h]

theorem broadcast_prune_eq (sendOk : Conn → Bool) (conns : List Conn) :
    (conns.filter fun c => !(conns.filter fun c => !sendOk c).contains c) =
      conns.filter sendOk := by
  apply List.filter_congr
  intro c hc
  by_cases h : sendOk c = true <;> simp [List.mem_filter, hc, h]

/-- C4: `broadcast` (for both connection managers) attempts delivery to
every registered connection, delivers to exactly those whose send does not
fail, collects exactly the failed subset, removes exactly that subset from
the registered set after the sweep, and is a no-op on an empty registered
set. -/
theorem broadcast_partial_failure (conns : List Conn) (sendOk : Conn → Bool) :
    (DashboardConnectionManager.broadcast conns sendOk).delivered = conns.filter sendOk ∧
    (DashboardConnectionManager.broadcast conns sendOk).disconnected =
      (conns.filter fun c => !sendOk c) ∧
    (DashboardConnectionManager.broadcast conns sendOk).remaining = conns.filter sendOk ∧
    (∀ c ∈ conns, c ∈ (DashboardConnectionManager.broadcast conns sendOk).delivered ∨
      c ∈ (DashboardConnectionManager.broadcast conns sendOk).disconnected) ∧
    ExtensionConnectionManager.broadcast conns sendOk =
      DashboardConnectionManager.broadcast conns sendOk ∧
    DashboardConnectionManager.broadcast [] sendOk = ⟨[], [], []⟩ := by
  have hsweep := broadcastSweep_eq sendOk conns
  have hprune := broadcast_prune_eq sendOk conns
  by_cases hnil : conns = []
  · subst hnil
    simp [DashboardConnectionManager.broadcast, ExtensionConnectionManager.broadcast,
      broadcastSweep]
  · have hd : (DashboardConnectionManager.broadcast conns sendOk).delivered =
        conns.filter sendOk := by
      simp [DashboardConnectionManager.broadcast, hnil, hsweep]
    have hf : (DashboardConnectionManager.broadcast conns sendOk).disconnected =
        (conns.filter fun c => !sendOk c) := by
      simp [DashboardConnectionManager.broadcast, hnil, hsweep]
    have hr : (DashboardConnectionManager.broadcast conns sendOk).remaining =
        conns.filter sendOk := by
      simp only [DashboardConnectionManager.broadcast, if_neg hnil, hsweep]
      exact hprune
    refine ⟨hd, hf, hr, ?_, ?_, ?_⟩
    · intro c hc
      rw [hd, hf]
      by_cases h : sendOk c = true
      · exact Or.inl (List.mem_filter.mpr ⟨hc, h⟩)
      · exact Or.inr (List.mem_filter.mpr ⟨hc, by simp [h]⟩)
    · simp [DashboardConnectionManager.broadcast, ExtensionConnectionManager.broadcast, hnil]
    · simp [DashboardConnectionManager.broadcast, broadcastSweep]

/-! Concrete fixtures for witnesses, from the spec's worked scenario. -/

def sampleSummary : Summary :=
  ⟨"Roadmap discussion", ["Q3 goals"], [], "Planning", "Professional"⟩

def samplePayload : SessionSaveRequest :=
  ⟨"Standup", "https://meet.example/1", 300, "QUJD", "audio/webm"⟩

def sampleHash : String → Nat := fun s => s.length

def envOk : Env :=
  ⟨.ok "We discussed the roadmap.", .ok sampleSummary, none, .ok "dbid"⟩

def envDbFail : Env :=
  ⟨.ok "We discussed the roadmap.", .ok sampleSummary, none, .error "mongo down"⟩

def envTransFail : Env :=
  ⟨.error "TransientCapabilityFailure", .ok sampleSummary, none, .ok "dbid"⟩

def envEmptyTranscript : Env :=
  ⟨.ok "", .ok sampleSummary, none, .ok "dbid"⟩

/-- Closed instance of `broadcast_partial_failure`: three registered
connections, the middle one fails to send, the other two are delivered to
and the failed one is pruned. -/
theorem broadcast_partial_failure_witness :
    (DashboardConnectionManager.broadcast [1, 2, 3] (fun c => c ≠ 2)).delivered =
      [1, 3] ∧
    (DashboardConnectionManager.broadcast [1, 2, 3] (fun c => c ≠ 2)).disconnected = [2] ∧
    (DashboardConnectionManager.broadcast [1, 2, 3] (fun c => c ≠ 2)).remaining = [1, 3] ∧
    (2 : Conn) ∈ (DashboardConnectionManager.broadcast [1, 2, 3]
      (fun c => c ≠ 2)).disconnected := by
  obtain ⟨h1, h2, h3, h4, -, -⟩ := broadcast_partial_failure [1, 2, 3] (fun c => c ≠ 2)
  refine ⟨by rw [h1]; decide, by rw [h2]; decide, by rw [h3]; decide, ?_⟩
  rcases h4 2 (by decide) with h | h
  · rw [h1] at h; exact absurd h (by decide)
  · exact h

/-- C1: in every invocation of `save_session_endpoint`, the percentages of
the broadcast `SESSION_PROGRESS` events form a strictly increasing
sequence, every progress event carries the invocation's temporary id, and
when the invocation returns success the last progress event is 100 with
step `complete`. -/
theorem progress_strictly_increasing (hashFn : String → Nat)
    (payload : SessionSaveRequest) (session_id : String) (env : Env) :
    List.Chain' (fun a b => a.2.1 < b.2.1)
      (progressEvents (save_session_endpoint hashFn payload session_id env).events) ∧
    (∀ p ∈ progressEvents (save_session_endpoint hashFn payload session_id env).events,
      p.1 = session_id) ∧
    ((save_session_endpoint hashFn payload session_id env).result.success = true →
      (progressEvents
        (save_session_endpoint hashFn payload session_id env).events).getLast? =
        some (session_id, 100, "complete")) := by
  rcases ht : env.transcribe with msg | raw
  · simp [save_session_endpoint, progressEvents, ht]
  · rcases hs : env.summarize with msg | summ
    · simp [save_session_endpoint, progressEvents, ht, hs]
    · rcases hd : env.dbSave with msg | dbId
      · simp [save_session_endpoint, progressEvents, ht, hs, hd]
      · by_cases hid : dbId = session_id <;>
          simp [save_session_endpoint, progressEvents, ht, hs, hd, hid]

/-- Closed instance of `progress_strictly_increasing` on the spec's worked
scenario: the progress sequence is strictly increasing and, the run being
successful, ends at `(100, "complete")`. -/
theorem progress_strictly_increasing_witness :
    List.Chain' (fun a b => a.2.1 < b.2.1)
      (progressEvents (save_session_endpoint sampleHash samplePayload "tmp" envOk).events) ∧
    (progressEvents
      (save_session_endpoint sampleHash samplePayload "tmp" envOk).events).getLast? =
      some ("tmp", 100, "complete") :=
  ⟨(progress_strictly_increasing sampleHash samplePayload "tmp" envOk).1,
    (progress_strictly_increasing sampleHash samplePayload "tmp" envOk).2.2 rfl⟩

/-- C3: when the transcription capability fails, the pipeline aborts: the
response is a failure carrying the error, exactly one `SESSION_ERROR` is
broadcast for the temporary id, no `SESSION_RESULT` is ever broadcast for
it, and the summarization capability is never invoked. -/
theorem transcription_failure_aborts (hashFn : String → Nat)
    (payload : SessionSaveRequest) (session_id : String) (env : Env) (msg : String)
    (h : env.transcribe = .error msg) :
    (save_session_endpoint hashFn payload session_id env).result.success = false ∧
    (save_session_endpoint hashFn payload session_id env).result.error =
      some ("Transcription failed: " ++ msg) ∧
    (save_session_endpoint hashFn payload session_id env).events.countP
      (isErrorFor session_id) = 1 ∧
    (save_session_endpoint hashFn payload session_id env).events.countP
      (isResultFor session_id) = 0 ∧
    (save_session_endpoint hashFn payload session_id env).summarizeCalled = false := by
  simp [save_session_endpoint, h, isErrorFor, isResultFor, List.countP_cons]

/-- Closed instance of `transcription_failure_aborts` for a transient
capability failure on the transcription call. -/
theorem transcription_failure_aborts_witness :
    (save_session_endpoint sampleHash samplePayload "tmp" envTransFail).result.success =
      false ∧
    (save_session_endpoint sampleHash samplePayload "tmp" envTransFail).events.countP
      (isErrorFor "tmp") = 1 ∧
    (save_session_endpoint sampleHash samplePayload "tmp" envTransFail).events.countP
      (isResultFor "tmp") = 0 ∧
    (save_session_endpoint sampleHash samplePayload "tmp" envTransFail).summarizeCalled =
      false := by
  obtain ⟨h1, -, h3, h4, h5⟩ :=
    transcription_failure_aborts sampleHash samplePayload "tmp" envTransFail
      "TransientCapabilityFailure" rfl
  exact ⟨h1, h3, h4, h5⟩

/-- C2: when the pipeline persists successfully and the durable id differs
from the temporary id, exactly one `SESSION_ID_UPDATE` is broadcast,
exactly one `SESSION_RESULT` keyed by the temporary id is broadcast, and
that `SESSION_RESULT` precedes the `SESSION_ID_UPDATE` (the prefix of the
trace before the first id update already contains it); when persistence
fails, no `SESSION_ID_UPDATE` is ever broadcast. -/
theorem identity_reconciliation (hashFn : String → Nat)
    (payload : SessionSaveRequest) (session_id : String) (env : Env) :
    (∀ rawT summ dbId, env.transcribe = .ok rawT → env.summarize = .ok summ →
      env.dbSave = .ok dbId → dbId ≠ session_id →
      (save_session_endpoint hashFn payload session_id env).events.countP
        Event.isIdUpdate = 1 ∧
      (save_session_endpoint hashFn payload session_id env).events.countP
        (isResultFor session_id) = 1 ∧
      ((save_session_endpoint hashFn payload session_id env).events.takeWhile
        (fun e => !e.isIdUpdate)).countP (isResultFor session_id) = 1) ∧
    (∀ e, env.dbSave = .error e →
      (save_session_endpoint hashFn payload session_id env).events.countP
        Event.isIdUpdate = 0) := by
  constructor
  · intro rawT summ dbId ht hs hd hne
    refine ⟨?_, ?_, ?_⟩ <;>
      simp [save_session_endpoint, ht, hs, hd, hne, Event.isIdUpdate, isResultFor,
        List.countP_cons, List.takeWhile]
  · intro e hd
    rcases ht : env.transcribe with msg | rawT
    · simp [save_session_endpoint, ht, Event.isIdUpdate, List.countP_cons]
    · rcases hs : env.summarize with msg | summ <;>
        simp [save_session_endpoint, ht, hs, hd, Event.isIdUpdate, List.countP_cons]

/-- Closed instance of `identity_reconciliation`: on a run whose durable
id `"dbid"` differs from the temporary id `"tmp"` the trace holds exactly
one id update, preceded by the unique `SESSION_RESULT`; on a run whose
store write fails, the trace holds none. -/
theorem identity_reconciliation_witness :
    ((save_session_endpoint sampleHash samplePayload "tmp" envOk).events.countP
      Event.isIdUpdate = 1 ∧
    (save_session_endpoint sampleHash samplePayload "tmp" envOk).events.countP
      (isResultFor "tmp") = 1 ∧
    ((save_session_endpoint sampleHash samplePayload "tmp" envOk).events.takeWhile
      (fun e => !e.isIdUpdate)).countP (isResultFor "tmp") = 1) ∧
    (save_session_endpoint sampleHash samplePayload "tmp" envDbFail).events.countP
      Event.isIdUpdate = 0 :=
  ⟨(identity_reconciliation sampleHash samplePayload "tmp" envOk).1
      "We discussed the roadmap." sampleSummary "dbid" rfl rfl rfl (by decide),
    (identity_reconciliation sampleHash samplePayload "tmp" envDbFail).2
      "mongo down" rfl⟩

/-- C5 counterexample: with the store write failing after the
`SESSION_RESULT` broadcast, no `SESSION_ERROR` is broadcast (that part of
the claim holds), but the failure is not reported in the synchronous API
return value: the endpoint answers `success = true` with no error field,
so the caller cannot see the failure, contrary to the claim. -/
theorem persistence_failure_counterexample :
    (save_session_endpoint sampleHash samplePayload "tmp" envDbFail).events.countP
      (isErrorFor "tmp") = 0 ∧
    envDbFail.dbSave = .error "mongo down" ∧
    ¬((save_session_endpoint sampleHash samplePayload "tmp" envDbFail).result.success =
        false ∨
      (save_session_endpoint sampleHash samplePayload "tmp" envDbFail).result.error ≠
        none) := by
  refine ⟨?_, rfl, ?_⟩
  · simp [save_session_endpoint, envDbFail, sampleSummary, samplePayload, isErrorFor,
      List.countP_cons]
  · simp [save_session_endpoint, envDbFail, sampleSummary, samplePayload]

/-- C5 amended: if the durable-store write fails after the
`SESSION_RESULT` broadcast, no `SESSION_ERROR` event is broadcast for that
invocation, the unique `SESSION_RESULT` stays in the trace, but the
synchronous response still reports `success = true` with the temporary id
as the session id and no error field — the failure is only logged, never
surfaced to the caller. -/
theorem persistence_failure_swallowed (hashFn : String → Nat)
    (payload : SessionSaveRequest) (session_id : String) (env : Env)
    (rawT : String) (summ : Summary) (e : String)
    (h1 : env.transcribe = .ok rawT) (h2 : env.summarize = .ok summ)
    (h3 : env.dbSave = .error e) :
    (save_session_endpoint hashFn payload session_id env).events.countP
      (isErrorFor session_id) = 0 ∧
    (save_session_endpoint hashFn payload session_id env).events.countP
      (isResultFor session_id) = 1 ∧
    (save_session_endpoint hashFn payload session_id env).result.success = true ∧
    (save_session_endpoint hashFn payload session_id env).result.sessionId =
      some session_id ∧
    (save_session_endpoint hashFn payload session_id env).result.error = none := by
  refine ⟨?_, ?_, ?_, ?_, ?_⟩ <;>
    simp [save_session_endpoint, h1, h2, h3, isErrorFor, isResultFor, List.countP_cons]

/-- Closed instance of `persistence_failure_swallowed` on the worked
scenario with the store down. -/
theorem persistence_failure_swallowed_witness :
    (save_session_endpoint sampleHash samplePayload "tmp" envDbFail).events.countP
      (isErrorFor "tmp") = 0 ∧
    (save_session_endpoint sampleHash samplePayload "tmp" envDbFail).result.success =
      true ∧
    (save_session_endpoint sampleHash samplePayload "tmp" envDbFail).result.sessionId =
      some "tmp" := by
  obtain ⟨a, -, c, d, -⟩ :=
    persistence_failure_swallowed sampleHash samplePayload "tmp" envDbFail
      "We discussed the roadmap." sampleSummary "mongo down" rfl rfl rfl
  exact ⟨a, c, d⟩

/-- C6: when transcription succeeds with empty text (the `not transcript`
branch at main.py:712), every `SESSION_RESULT` broadcast of the invocation
carries the literal string `"[No speech detected in recording]"` as its
transcript and never the empty string, the record handed to the durable
store carries the same literal, and the marker itself is not the empty
string; when summarization also succeeds, exactly one such
`SESSION_RESULT` exists and the store record is present, so the statement
is not vacuous. -/
theorem empty_transcript_marker (hashFn : String → Nat)
    (payload : SessionSaveRequest) (session_id : String) (env : Env)
    (h : env.transcribe = .ok "") :
    (∀ t ∈ resultTranscripts (save_session_endpoint hashFn payload session_id env).events,
      t = noSpeechMarker ∧ t ≠ "") ∧
    (∀ sd, (save_session_endpoint hashFn payload session_id env).dbRecord = some sd →
      sd.transcript = noSpeechMarker ∧ sd.transcript ≠ "") ∧
    (∀ summ, env.summarize = .ok summ →
      resultTranscripts (save_session_endpoint hashFn payload session_id env).events =
        [noSpeechMarker] ∧
      ∃ sd, (save_session_endpoint hashFn payload session_id env).dbRecord = some sd ∧
        sd.transcript = noSpeechMarker) ∧
    noSpeechMarker ≠ "" := by
  have hmark : noSpeechMarker ≠ "" := by decide
  refine ⟨?_, ?_, ?_, hmark⟩
  · rcases hs : env.summarize with msg | summ
    · simp [save_session_endpoint, h, hs, resultTranscripts]
    · rcases hd : env.dbSave with msg | dbId
      · simp [save_session_endpoint, h, hs, hd, resultTranscripts, hmark]
      · by_cases hid : dbId = session_id <;>
          simp [save_session_endpoint, h, hs, hd, hid, resultTranscripts, hmark]
  · rcases hs : env.summarize with msg | summ
    · simp [save_session_endpoint, h, hs]
    · rcases hd : env.dbSave with msg | dbId
      · simp [save_session_endpoint, h, hs, hd, hmark]
      · by_cases hid : dbId = session_id <;>
          simp [save_session_endpoint, h, hs, hd, hid, hmark]
  · intro summ hs
    rcases hd : env.dbSave with msg | dbId
    · simp [save_session_endpoint, h, hs, hd, resultTranscripts]
    · by_cases hid : dbId = session_id <;>
        simp [save_session_endpoint, h, hs, hd, hid, resultTranscripts]

/-- Closed instance of `empty_transcript_marker` on a run with an empty
transcription result: the unique `SESSION_RESULT` carries the marker, the
store record carries the marker, and the marker is not the empty string. -/
theorem empty_transcript_marker_witness :
    resultTranscripts
      (save_session_endpoint sampleHash samplePayload "tmp" envEmptyTranscript).events =
      [noSpeechMarker] ∧
    (∃ sd, (save_session_endpoint sampleHash samplePayload "tmp"
      envEmptyTranscript).dbRecord = some sd ∧ sd.transcript = noSpeechMarker) ∧
    noSpeechMarker ≠ "" := by
  obtain ⟨-, -, h3, h4⟩ :=
    empty_transcript_marker sampleHash samplePayload "tmp" envEmptyTranscript rfl
  exact ⟨(h3 sampleSummary rfl).1, (h3 sampleSummary rfl).2, h4⟩

/-- C7 counterexample: the transition table forbids leaving the terminal
status `completed`, yet the endpoint accepts moving a `completed` task
back to `pending` and modifies the stored task. -/
theorem update_task_transition_counterexample :
    specAllowedTransition "completed" "pending" = false ∧
    update_task_endpoint (some "completed") (some "pending") =
      (⟨true, none⟩, some "pending") := by
  exact ⟨rfl, rfl⟩

/-- C7 amended: the endpoint validates only membership in the four-member
status enum, not the transition table: any of the four statuses is
accepted for an existing task regardless of its current status and becomes
the stored status; a requested status outside the enum (or an empty or
missing one, or a missing task) is rejected, and every rejected request
leaves the stored task unmodified. -/
theorem update_task_endpoint_validation (stored : Option String)
    (reqStatus : Option String) :
    (∀ s cur, reqStatus = some s → s ∈ statusEnum → stored = some cur →
      update_task_endpoint stored reqStatus = (⟨true, none⟩, some s)) ∧
    (∀ s, reqStatus = some s → s ∉ statusEnum →
      (update_task_endpoint stored reqStatus).1.success = false) ∧
    ((update_task_endpoint stored reqStatus).1.success = false →
      (update_task_endpoint stored reqStatus).2 = stored) := by
  refine ⟨?_, ?_, ?_⟩
  · rintro s cur rfl hmem rfl
    have hne : s ≠ "" := by
      rintro rfl
      simp [statusEnum] at hmem
    simp [update_task_endpoint, hne, hmem]
  · rintro s rfl hmem
    by_cases hne : s = ""
    · simp [update_task_endpoint, hne]
    · simp [update_task_endpoint, hne, hmem]
  · rcases reqStatus with - | s
    · simp [update_task_endpoint]
    · by_cases hne : s = ""
      · simp [update_task_endpoint, hne]
      · by_cases hmem : s ∈ statusEnum
        · rcases stored with - | cur
          · simp [update_task_endpoint, hne, hmem]
          · simp [update_task_endpoint, hne, hmem]
        · simp [update_task_endpoint, hne, hmem]

/-- Closed instance of `update_task_endpoint_validation`: a pending task
is marked completed; a status outside the enum is rejected and the stored
status survives. -/
theorem update_task_endpoint_validation_witness :
    update_task_endpoint (some "pending") (some "completed") =
      (⟨true, none⟩, some "completed") ∧
    (update_task_endpoint (some "pending") (some "banana")).1.success = false ∧
    (update_task_endpoint (some "pending") (some "banana")).2 = some "pending" := by
  have h1 := (update_task_endpoint_validation (some "pending") (some "completed")).1
    "completed" "pending" rfl (by decide) rfl
  have h2 := (update_task_endpoint_validation (some "pending") (some "banana")).2.1
    "banana" rfl (by decide)
  have h3 := (update_task_endpoint_validation (some "pending") (some "banana")).2.2 h2
  exact ⟨h1, h2, h3⟩

/-- C8 counterexample: the snapshot filter keeps every status other than
`completed`, so a `dismissed` task is included in the `REQUEST_TASKS`
answer (the claim allows only pending tasks); and a fresh connection
receives no snapshot at all when the filtered subset is empty. -/
theorem extension_snapshot_counterexample :
    onRequestTasks [⟨"t1", "dismissed"⟩] = ExtMsg.syncedTasks [⟨"t1", "dismissed"⟩] ∧
    ("dismissed" : String) ≠ "pending" ∧
    onExtensionConnect [⟨"t2", "completed"⟩] = [] := by
  exact ⟨rfl, by decide, rfl⟩

/-- C8 amended: the snapshot sent to extension connections is the at most
five most recent of the fifty most recent suggested tasks whose status is
not `completed` (so pending, in_progress and dismissed tasks alike), hence
always bounded and a subsequence of the stored list; every `REQUEST_TASKS`
message is answered with exactly this snapshot, while on a new connection
it is pushed only when non-empty. -/
theorem extension_snapshot_bounded (tasks : List XTask) :
    (extensionSnapshot tasks).length ≤ 5 ∧
    (∀ t ∈ extensionSnapshot tasks, t.status ≠ "completed") ∧
    (extensionSnapshot tasks).Sublist tasks ∧
    onRequestTasks tasks = ExtMsg.syncedTasks (extensionSnapshot tasks) ∧
    (extensionSnapshot tasks ≠ [] →
      onExtensionConnect tasks = [ExtMsg.syncedTasks (extensionSnapshot tasks)]) ∧
    (extensionSnapshot tasks = [] → onExtensionConnect tasks = []) := by
  refine ⟨?_, ?_, ?_, rfl, ?_, ?_⟩
  · exact List.length_take_le 5 _
  · intro t ht
    have h1 := List.mem_of_mem_take ht
    have h2 := List.of_mem_filter h1
    simpa using h2
  · exact (List.take_sublist _ _).trans
      ((List.filter_sublist _).trans (List.take_sublist _ _))
  · intro h
    simp [onExtensionConnect, h]
  · intro h
    simp [onExtensionConnect, h]

/-- Closed instance of `extension_snapshot_bounded` on a non-empty stored
list: the snapshot is bounded, completed tasks are excluded, and the
on-connect push happens. -/
theorem extension_snapshot_bounded_witness :
    (extensionSnapshot [⟨"a", "pending"⟩, ⟨"b", "completed"⟩]).length ≤ 5 ∧
    onRequestTasks [⟨"a", "pending"⟩, ⟨"b", "completed"⟩] =
      ExtMsg.syncedTasks (extensionSnapshot [⟨"a", "pending"⟩, ⟨"b", "completed"⟩]) ∧
    onExtensionConnect [⟨"a", "pending"⟩, ⟨"b", "completed"⟩] =
      [ExtMsg.syncedTasks (extensionSnapshot [⟨"a", "pending"⟩, ⟨"b", "completed"⟩])] := by
  obtain ⟨h1, -, -, h4, h5, -⟩ :=
    extension_snapshot_bounded [⟨"a", "pending"⟩, ⟨"b", "completed"⟩]
  exact ⟨h1, h4, h5 (by decide)⟩

/-- C9: the embedding operation (with no external embedding service
configured) is total and of fixed dimension: embedding the empty string
yields the 768-component zero vector, every embedding has length 768, and
two calls on identical input yield the identical deterministic stub
vector. -/
theorem generate_embedding_total (hashFn : String → Nat) :
    generate_embedding hashFn "" = List.replicate EMBED_DIM 0 ∧
    EMBED_DIM = 768 ∧
    (∀ x, (generate_embedding hashFn x).length = 768) ∧
    (∀ x y, x = y → generate_embedding hashFn x = generate_embedding hashFn y) := by
  refine ⟨?_, rfl, ?_, ?_⟩
  · simp [generate_embedding, pyBlank]
  · intro x
    by_cases h : pyBlank x = true
    · rw [generate_embedding, if_pos h, List.length_replicate]
      rfl
    · rw [generate_embedding, if_neg h, stub_embedding]
      simp
      rfl
  · rintro x y rfl
    rfl

/-- Closed instance of `generate_embedding_total` with a concrete hash
function: the empty string maps to the zero vector, a non-empty input maps
to a 768-component vector, and repeated calls agree. -/
theorem generate_embedding_total_witness :
    generate_embedding (fun s => s.length) "" = List.replicate EMBED_DIM 0 ∧
    (generate_embedding (fun s => s.length) "hello").length = 768 ∧
    generate_embedding (fun s => s.length) "hello" =
      generate_embedding (fun s => s.length) "hello" :=
  ⟨(generate_embedding_total (fun s => s.length)).1,
    (generate_embedding_total (fun s => s.length)).2.2.1 "hello",
    (generate_embedding_total (fun s => s.length)).2.2.2 "hello" "hello" rfl⟩

/-- C10: on any string that is not a valid ObjectId, the session and
suggested-task lookups return `none` and the update and delete operations
return `false`; the store itself is never consulted and no exception
escapes (`ObjectId` raising is caught by each function's `try/except`). -/
theorem malformed_id_rejected {α : Type} (sessStore taskStore : String → Option α)
    (sessUpd sessDel taskUpd taskDel : String → Bool) (id : String)
    (h : isValidObjectId id = false) :
    get_session_by_id sessStore id = none ∧
    update_session sessUpd id = false ∧
    delete_session sessDel id = false ∧
    get_suggested_task_by_id taskStore id = none ∧
    update_suggested_task taskUpd id = false ∧
    delete_suggested_task taskDel id = false := by
  refine ⟨?_, ?_, ?_, ?_, ?_, ?_⟩ <;>
    simp [get_session_by_id, update_session, delete_session, get_suggested_task_by_id,
      update_suggested_task, delete_suggested_task, h]

/-- Closed instance of `malformed_id_rejected` on the malformed id
`"not-an-objectid"`, against stores that would answer positively if
consulted. -/
theorem malformed_id_rejected_witness :
    get_session_by_id (fun _ => some ()) "not-an-objectid" = none ∧
    delete_session (fun _ => true) "not-an-objectid" = false ∧
    update_suggested_task (fun _ => true) "not-an-objectid" = false := by
  obtain ⟨h1, -, h3, -, h5, -⟩ :=
    malformed_id_rejected (fun _ => some ()) (fun _ => some ())
      (fun _ => true) (fun _ => true) (fun _ => true) (fun _ => true)
      "not-an-objectid" (by decide)
  exact ⟨h1, h3, h5⟩

end Cue
